import Mathlib

/-!
Verification of the connection / state-synchronization core of the
`cockpitdecks_xp` X-Plane simulator plugin.

The definitions below are a shallow embedding of the Python source:

* `simulators/xplane.py` — `DatarefMeta` (subscribed array indices and their
  history), `Dataref.monitor`/`Dataref.unmonitor` (reference counting),
  `XPlaneWebSocket.send`/`next_req` (request-id assignment), and the body of
  `XPlane.ws_receiver` (the WebSocket frame dispatcher).
* `simulators/beacon.py` — `XPlaneBeacon.FindIp` (beacon version gate).

Modelling conventions:

* Python dicts whose insertion order matters are modelled as association
  lists; dict assignment replaces in place or appends at the end.
* Logging is modelled by the *level* of each record emitted on the main
  module logger (`logger`); messages and the auxiliary `webapi_logger`
  (a separate file logger) are not modelled.
* Exceptions caught by the `try/except` blocks inside the receive loop are
  modelled by making the frame processor a total function that yields the
  logged outcome of the handler; numeric dataref values are rationals.
* The modelled fragment of the dispatcher covers numeric scalar and array
  datarefs whose metadata lookup in `all_datarefs` succeeds; string
  (`"data"`-typed, base64) datarefs are outside the modelled fragment, and
  the bookkeeping fields of `DatarefMeta` that no modelled operation reads
  (`updates`, `_last_req_number`, value history) are omitted.
-/

/-- A JSON value carried for one dataref in a `dataref_update_values` frame:
either a scalar number or an array of numbers. -/
inductive WireValue
  | num (v : Rat)
  | arr (vs : List Rat)
  deriving DecidableEq, Repr

/-- Level of a record emitted on the module logger. -/
inductive LogLevel
  | debug
  | info
  | warning
  | error
  deriving DecidableEq, Repr

/-- Metadata for one dataref as cached from the REST API
(`DatarefMeta` in `simulators/xplane.py`): its name, declared value type,
writability, the insertion-ordered list of subscribed array indices, and the
history of snapshots of that list taken by `save_indices`. -/
structure DatarefMeta where
  name : String
  value_type : String
  is_writable : Bool
  indices : List Nat
  indices_history : List (List Nat)
  deriving DecidableEq, Repr

/-- Constructor `DatarefMeta.__init__`: indices and their history start empty. -/
def DatarefMeta.init (name value_type : String) (is_writable : Bool) : DatarefMeta :=
  { name := name, value_type := value_type, is_writable := is_writable
    indices := [], indices_history := [] }

/-- Method `DatarefMeta.save_indices`: append a copy of the current index list to the
history (called before every subscription mutation in
`register_bulk_dataref_value_event`). -/
def DatarefMeta.save_indices (m : DatarefMeta) : DatarefMeta :=
  { m with indices_history := m.indices_history ++ [m.indices] }

/-- Method `DatarefMeta.last_indices`: the most recent snapshot, or `[]` when no
snapshot was ever taken. -/
def DatarefMeta.last_indices (m : DatarefMeta) : List Nat :=
  match m.indices_history.getLast? with
  | some l => l
  | none => []

/-- Method `DatarefMeta.append_index`: append the index only if not already present
(the source keeps insertion order; the `indices.sort()` suggested by the Web
API manual is commented out). -/
def DatarefMeta.append_index (m : DatarefMeta) (i : Nat) : DatarefMeta :=
  if i ∈ m.indices then m else { m with indices := m.indices ++ [i] }

/-- Method `DatarefMeta.remove_index`: remove the index if present, otherwise log a
warning and leave the list unchanged.  The boolean records whether the warning
was emitted. -/
def DatarefMeta.remove_index (m : DatarefMeta) (i : Nat) : DatarefMeta × Bool :=
  if i ∈ m.indices then ({ m with indices := m.indices.erase i }, false) else (m, true)

/-- One mutation of the subscribed-index list. -/
inductive IdxOp
  | add (i : Nat)
  | rem (i : Nat)
  deriving DecidableEq, Repr

/-- Run a sequence of `append_index` / `remove_index` calls. -/
def runIdxOps (m : DatarefMeta) : List IdxOp → DatarefMeta
  | [] => m
  | IdxOp.add i :: t => runIdxOps (m.append_index i) t
  | IdxOp.rem i :: t => runIdxOps (m.remove_index i).1 t

/-- Method `Dataref.monitor`: increment the monitored reference count. -/
def monitor (c : Int) : Int := c + 1

/-- Method `Dataref.unmonitor`: decrement the count only when positive, otherwise log
a warning (second component) and leave the count unchanged. -/
def unmonitor (c : Int) : Int × Bool :=
  if 0 < c then (c - 1, false) else (c, true)

/-- One `monitor` or `unmonitor` call. -/
inductive MonOp
  | mon
  | unmon
  deriving DecidableEq, Repr

/-- Run a sequence of `monitor` / `unmonitor` calls on the reference count
(`Dataref._monitored` starts at 0 in `Dataref.__init__`). -/
def runMonOps (c : Int) : List MonOp → Int
  | [] => c
  | MonOp.mon :: t => runMonOps (monitor c) t
  | MonOp.unmon :: t => runMonOps (unmonitor c).1 t

-- ### WebSocket client state and the frame dispatcher

/-- One dataref entry of `XPlane._dataref_by_id` (keyed by numeric ident): a
single scalar `Dataref`, or a list of `Dataref`s for an array dataref, which
the dispatcher handles through the shared `DatarefMeta` of its first element
(`dataref[0].meta`, which may be absent from `all_datarefs`). -/
inductive DrefEntry
  | scalar (name : String) (value_type : String)
  | array (meta : Option DatarefMeta)
  deriving DecidableEq, Repr

/-- An event enqueued by the dispatcher: `DatarefEvent(dataref, value,
cascade)` or `CommandActiveEvent(command, is_active)` (the latter always
cascades in the source). -/
inductive WSEvent
  | datarefEvent (dataref : String) (value : WireValue) (cascade : Bool)
  | commandActiveEvent (command : String) (is_active : Bool)
  deriving DecidableEq, Repr

/-- The state of the WebSocket client relevant to `send` and `ws_receiver`:
connection flag (`self.ws is not None`), the request counter `req_number`,
the `_requests` table (request id → `None` while pending, then the result's
`success`), the payloads transmitted so far, the ident-keyed dataref and
command caches, and the keys of `simulator_variable_to_monitor`. -/
structure XPState where
  connected : Bool
  req_number : Nat
  requests : List (Nat × Option Bool)
  sent : List (List (String × Int))
  dataref_by_id : List (Nat × DrefEntry)
  command_by_id : List (Nat × String)
  monitored : List String
  deriving DecidableEq, Repr

/-- Association-list lookup, as Python `dict.get`. -/
def lookupId {α : Type} (k : Nat) : List (Nat × α) → Option α
  | [] => none
  | (k', v) :: t => if k = k' then some v else lookupId k t

/-- Python dict assignment `d[k] = v` on an insertion-ordered dict: replace in
place when the key exists, otherwise append at the end. -/
def setEntry {α : Type} (k : Nat) (v : α) : List (Nat × α) → List (Nat × α)
  | [] => [(k, v)]
  | (k', v') :: t => if k' = k then (k, v) :: t else (k', v') :: setEntry k v t

/-- Same dict assignment for string-keyed payloads (`payload["req_id"] = n`). -/
def setKey (k : String) (v : Int) : List (String × Int) → List (String × Int)
  | [] => [(k, v)]
  | (k', v') :: t => if k' = k then (k, v) :: t else (k', v') :: setKey k v t

/-- Method `XPlaneWebSocket.send`: when connected and the payload is non-empty,
draw the next request number (`next_req` pre-increments `req_number`), insert
it into the payload under `"req_id"`, record the id as pending (`None`) in
`_requests`, transmit, and return the id; otherwise log a warning, transmit
nothing and return -1. -/
def send (s : XPState) (payload : List (String × Int)) : XPState × Int :=
  match s.connected, payload with
  | true, _ :: _ =>
    let req_id := s.req_number + 1
    let payload' := setKey "req_id" (Int.ofNat req_id) payload
    ({ s with
        req_number := req_id
        requests := setEntry req_id none s.requests
        sent := s.sent ++ [payload'] },
      Int.ofNat req_id)
  | _, _ => (s, -1)

/-- Run a sequence of `send` calls, returning the list of returned ids. -/
def sendAll (s : XPState) : List (List (String × Int)) → XPState × List Int
  | [] => (s, [])
  | p :: t => ((sendAll (send s p).1 t).1, (send s p).2 :: (sendAll (send s p).1 t).2)

/-- Events for the subscribed elements of an array dataref: zip the pushed
values against the index list in order and emit one `DatarefEvent` per pair,
named `meta.name[idx]`, cascading iff that name is monitored. -/
def arrayEvents (name : String) (indices : List Nat) (vs : List Rat)
    (monitored : List String) : List WSEvent :=
  (indices.zip vs).map fun p =>
    WSEvent.datarefEvent (name ++ "[" ++ toString p.1 ++ "]") (WireValue.num p.2)
      (monitored.contains (name ++ "[" ++ toString p.1 ++ "]"))

/-- Handler for one `(ident, value)` pair of a `dataref_update_values` frame,
given the result of the `_dataref_by_id` lookup: the events enqueued and the
log records emitted.

* Unknown ident: a single debug record, no event, continue.
* Scalar dataref: `parse_raw_value` returns a numeric raw value unchanged
  (a type-mismatch warning when the raw value is not a number), and a
  `DatarefEvent` is always enqueued, cascading iff the name is monitored.
* Array dataref: a non-list value, or missing meta, warns and drops; on a
  length match against the current index list the values are delivered
  zipped against it; on a mismatch the previous snapshot (`last_indices`)
  is tried (two mismatch warnings first, then two more on snapshot match,
  or one "no attempt" warning and a drop). -/
def processPairWith (s : XPState) (entry : Option DrefEntry) (value : WireValue) :
    List WSEvent × List LogLevel :=
  match entry with
  | none => ([], [LogLevel.debug])
  | some (DrefEntry.scalar name _) =>
    let parseLogs : List LogLevel :=
      match value with
      | WireValue.num _ => []
      | WireValue.arr _ => [LogLevel.warning]
    ([WSEvent.datarefEvent name value (s.monitored.contains name)], parseLogs)
  | some (DrefEntry.array om) =>
    match value with
    | WireValue.num _ => ([], [LogLevel.warning])
    | WireValue.arr vs =>
      match om with
      | none => ([], [LogLevel.warning])
      | some meta =>
        if vs.length = meta.indices.length then
          (arrayEvents meta.name meta.indices vs s.monitored, [])
        else if vs.length = meta.last_indices.length then
          (arrayEvents meta.name meta.last_indices vs s.monitored,
            [LogLevel.warning, LogLevel.warning, LogLevel.warning, LogLevel.warning])
        else
          ([], [LogLevel.warning, LogLevel.warning, LogLevel.warning])

/-- One `(ident, value)` pair: look the ident up in `_dataref_by_id`. -/
def processPair (s : XPState) (p : Nat × WireValue) : List WSEvent × List LogLevel :=
  processPairWith s (lookupId p.1 s.dataref_by_id) p.2

/-- All pairs of one `dataref_update_values` frame, in order. -/
def processPairs (s : XPState) : List (Nat × WireValue) → List WSEvent × List LogLevel
  | [] => ([], [])
  | p :: t =>
    let (es, ls) := processPair s p
    let (es', ls') := processPairs s t
    (es ++ es', ls ++ ls')

/-- One `(ident, is_active)` pair of a `command_update_is_active` frame:
resolve the ident in the command cache; emit the event on success, warn and
skip otherwise. -/
def processCmdPair (s : XPState) (p : Nat × Bool) : List WSEvent × List LogLevel :=
  match lookupId p.1 s.command_by_id with
  | some name => ([WSEvent.commandActiveEvent name p.2], [])
  | none => ([], [LogLevel.warning])

/-- All pairs of one `command_update_is_active` frame, in order. -/
def processCmdPairs (s : XPState) : List (Nat × Bool) → List WSEvent × List LogLevel
  | [] => ([], [])
  | p :: t =>
    let (es, ls) := processCmdPair s p
    let (es', ls') := processCmdPairs s t
    (es ++ es', ls ++ ls')

/-- One inbound WebSocket frame as seen by the decode section of
`ws_receiver`: `malformed` stands for a frame on which `json.loads` (or any
later step of the handler) raises, the other constructors are the decoded
shapes keyed by the frame's `type` field, and `unknown` is any other `type`. -/
inductive Frame
  | malformed
  | result (req_id : Option Nat) (success : Bool)
  | commandActive (data : List (Nat × Bool))
  | datarefUpdate (data : List (Nat × WireValue))
  | unknown
  deriving DecidableEq, Repr

/-- The body of the receive loop for one frame: the inner `try/except` makes
this total — a `malformed` frame is caught and logged (warning) without
touching the state, a `result` frame stores its `success` under its `req_id`
in `_requests` (whether or not that id is known) and warns on failure, and
the update frames dispatch their pairs without changing the state. -/
def processFrame (s : XPState) : Frame → XPState × List WSEvent × List LogLevel
  | Frame.malformed => (s, [], [LogLevel.warning])
  | Frame.result rid success =>
    let s' :=
      match rid with
      | some r => { s with requests := setEntry r (some success) s.requests }
      | none => s
    (s', [], if success then [LogLevel.debug] else [LogLevel.warning])
  | Frame.commandActive data =>
    let (es, ls) := processCmdPairs s data
    (s, es, ls)
  | Frame.datarefUpdate data =>
    let (es, ls) := processPairs s data
    (s, es, ls)
  | Frame.unknown => (s, [], [LogLevel.warning])

/-- The receive loop over a sequence of inbound frames. -/
def processFrames (s : XPState) : List Frame → XPState × List WSEvent × List LogLevel
  | [] => (s, [], [])
  | f :: t =>
    let (s1, es, ls) := processFrame s f
    let (s2, es', ls') := processFrames s1 t
    (s2, es ++ es', ls ++ ls')

/-- Python `round(x, r)` on rationals (ties broken upward rather than to
even; no statement below depends on a tie). -/
def pyRound (x : Rat) (r : Nat) : Rat :=
  (round (x * 10 ^ r) : Int) / 10 ^ r

/-- The helper `dref_round` defined inside `ws_receiver`: round to the
configured number of decimals when one is configured, then clamp tiny
negative results to 0.  (The receive loop defines this helper but never
calls it.) -/
def dref_round (rounding : Option Nat) (v : Rat) : Rat :=
  let v' := match rounding with | some r => pyRound v r | none => v
  if v' < 0 ∧ -(1 / 1000) < v' then 0 else v'

-- ### Beacon discovery (`simulators/beacon.py`)

/-- The fixed-layout fields unpacked from a beacon packet
(`struct.unpack("<BBiiIH", packet[5:21])` in `XPlaneBeacon.FindIp`). -/
structure BeaconStruct where
  beacon_major_version : Nat
  beacon_minor_version : Nat
  application_host_id : Int
  xplane_version_number : Int
  role : Nat
  port : Nat
  deriving DecidableEq, Repr

/-- The populated `beacon_data` endpoint: sender IP, port, decoded hostname,
X-Plane version number and role. -/
structure BeaconData where
  ip : String
  port : Nat
  hostname : String
  xplane_version : Int
  role : Nat
  deriving DecidableEq, Repr

/-- Outcome of one `FindIp` receive: header mismatch (warned, endpoint left
empty), version gate failed (`XPlaneVersionNotSupported` raised, endpoint
left empty), or endpoint populated. -/
inductive FindIpOutcome
  | unknownPacket
  | versionNotSupported
  | found (d : BeaconData)
  deriving DecidableEq, Repr

/-- The 5-byte magic header `b"BECN\x00"`. -/
def beaconMagic : List Nat := [0x42, 0x45, 0x43, 0x4E, 0x00]

/-- Decoding step of `XPlaneBeacon.FindIp` after the socket receive: `beacon_data` was reset to
`{}` on entry; the header is checked against the magic, the fixed layout is
unpacked, and the endpoint is populated only when the major version is 1, the
minor version is ≤ 2 and the application host id is 1 (the simulator itself);
any other combination raises `XPlaneVersionNotSupported`. -/
def FindIp (header : List Nat) (sender_ip : String) (b : BeaconStruct)
    (hostname : String) : FindIpOutcome :=
  if header ≠ beaconMagic then FindIpOutcome.unknownPacket
  else if b.beacon_major_version = 1 ∧ b.beacon_minor_version ≤ 2 ∧ b.application_host_id = 1 then
    FindIpOutcome.found
      { ip := sender_ip, port := b.port, hostname := hostname
        xplane_version := b.xplane_version_number, role := b.role }
  else FindIpOutcome.versionNotSupported

/-- The `beacon_data` dict resulting from one `FindIp` outcome: populated only
in the `found` case (`connect_loop` also clears it to `{}` when
`XPlaneVersionNotSupported` is caught). -/
def beaconDataAfter : FindIpOutcome → Option BeaconData
  | FindIpOutcome.found d => some d
  | _ => none

-- ### Claim-level helper lemmas

theorem append_index_nodup (m : DatarefMeta) (i : Nat) (h : m.indices.Nodup) :
    (m.append_index i).indices.Nodup := by
  unfold DatarefMeta.append_index
  by_cases hi : i ∈ m.indices
  · simpa [hi] using h
  · simp only [hi, if_false]
    simpa [List.nodup_append] using ⟨h, hi⟩

theorem runIdxOps_nodup (ops : List IdxOp) (m : DatarefMeta) (h : m.indices.Nodup) :
    (runIdxOps m ops).indices.Nodup := by
  induction ops generalizing m with
  | nil => simpa [runIdxOps] using h
  | cons op t ih =>
    cases op with
    | add i => exact ih _ (append_index_nodup m i h)
    | rem i =>
      apply ih
      unfold DatarefMeta.remove_index
      by_cases hi : i ∈ m.indices
      · simpa [hi] using h.erase i
      · simpa [hi] using h

theorem runMonOps_nonneg (ops : List MonOp) (c : Int) (h : 0 ≤ c) :
    0 ≤ runMonOps c ops := by
  induction ops generalizing c with
  | nil => simpa [runMonOps] using h
  | cons op t ih =>
    cases op with
    | mon => exact ih _ (by simp only [monitor]; omega)
    | unmon =>
      apply ih
      unfold unmonitor
      by_cases hc : 0 < c
      · simp only [hc, if_true]; omega
      · simpa [hc] using h

-- ### C4 and C10

/-- C4: for every interleaving of `monitor` and `unmonitor` calls starting
from the initial count 0, the monitored reference count stays ≥ 0; `monitor`
increments by one, and `unmonitor` at count 0 logs a warning and leaves the
count at zero. -/
theorem c4_monitor_count_nonneg :
    (∀ ops : List MonOp, 0 ≤ runMonOps 0 ops)
      ∧ (∀ c : Int, monitor c = c + 1)
      ∧ unmonitor 0 = (0, true) := by
  refine ⟨fun ops => runMonOps_nonneg ops 0 le_rfl, fun c => rfl, ?_⟩
  simp [unmonitor]

/-- C10: the subscribed index list of a `DatarefMeta` never contains
duplicates (under any sequence of `append_index`/`remove_index` calls from a
freshly constructed meta), `append_index` is idempotent, appending a fresh
index appends it at the end (insertion order preserved), and `remove_index`
of an absent index warns and leaves the meta unchanged. -/
theorem c10_indices_nodup_insertion_order :
    (∀ (n vt : String) (w : Bool) (ops : List IdxOp),
        (runIdxOps (DatarefMeta.init n vt w) ops).indices.Nodup)
      ∧ (∀ (m : DatarefMeta) (i : Nat),
          (m.append_index i).append_index i = m.append_index i)
      ∧ (∀ (m : DatarefMeta) (i : Nat), i ∉ m.indices →
          (m.append_index i).indices = m.indices ++ [i])
      ∧ (∀ (m : DatarefMeta) (i : Nat), i ∉ m.indices →
          m.remove_index i = (m, true)) := by
  refine ⟨fun n vt w ops => runIdxOps_nodup ops _ (by simp [DatarefMeta.init]), ?_, ?_, ?_⟩
  · intro m i
    unfold DatarefMeta.append_index
    by_cases hi : i ∈ m.indices
    · simp [hi]
    · simp [hi]
  · intro m i hi
    simp [DatarefMeta.append_index, hi]
  · intro m i hi
    simp [DatarefMeta.remove_index, hi]

/-- Closed instance for C10: appending 3 to `[1, 2]` puts it at the end, and
removing the absent index 7 warns and changes nothing. -/
theorem c10_witness :
    ((DatarefMeta.init "sim/arr" "float_array" true).append_index 3).append_index 3
        = (DatarefMeta.init "sim/arr" "float_array" true).append_index 3
      ∧ ({ DatarefMeta.init "sim/arr" "float_array" true with
            indices := [1, 2] }.append_index 3).indices = [1, 2, 3]
      ∧ { DatarefMeta.init "sim/arr" "float_array" true with
            indices := [1, 2] }.remove_index 7
          = ({ DatarefMeta.init "sim/arr" "float_array" true with indices := [1, 2] }, true) :=
  ⟨c10_indices_nodup_insertion_order.2.1 _ 3,
    c10_indices_nodup_insertion_order.2.2.1 _ 3 (by decide),
    c10_indices_nodup_insertion_order.2.2.2 _ 7 (by decide)⟩

-- ### C6

/-- C6: for a received beacon packet with a valid magic header, `FindIp`
populates the endpoint (IP, port, hostname, version, role) if and only if the
decoded major version is 1, the minor version is ≤ 2 and the application host
id is 1; any other combination raises the version-not-supported condition and
leaves the endpoint unpopulated. -/
theorem c6_beacon_version_gate (header : List Nat) (sender_ip : String)
    (b : BeaconStruct) (hostname : String) (hh : header = beaconMagic) :
    (FindIp header sender_ip b hostname =
        FindIpOutcome.found
          { ip := sender_ip, port := b.port, hostname := hostname
            xplane_version := b.xplane_version_number, role := b.role }
      ↔ (b.beacon_major_version = 1 ∧ b.beacon_minor_version ≤ 2
          ∧ b.application_host_id = 1))
    ∧ (¬(b.beacon_major_version = 1 ∧ b.beacon_minor_version ≤ 2
          ∧ b.application_host_id = 1) →
        FindIp header sender_ip b hostname = FindIpOutcome.versionNotSupported
          ∧ beaconDataAfter (FindIp header sender_ip b hostname) = none) := by
  subst hh
  constructor
  · constructor
    · intro hf
      by_contra hcond
      simp [FindIp, hcond] at hf
    · intro hcond
      simp [FindIp, hcond]
  · intro hcond
    simp [FindIp, hcond, beaconDataAfter]

/-- Closed instance for C6: a beacon with major version 2 is rejected and the
endpoint stays unpopulated. -/
theorem c6_witness :
    FindIp beaconMagic "192.168.1.41"
        { beacon_major_version := 2, beacon_minor_version := 1
          application_host_id := 1, xplane_version_number := 121400
          role := 1, port := 8086 } "sim-host"
      = FindIpOutcome.versionNotSupported :=
  ((c6_beacon_version_gate beaconMagic "192.168.1.41"
      { beacon_major_version := 2, beacon_minor_version := 1
        application_host_id := 1, xplane_version_number := 121400
        role := 1, port := 8086 } "sim-host" rfl).2 (by decide)).1

-- ### C2

/-- C2: when the pushed value list of an array dataref matches the length of
the currently subscribed index list, the dispatcher zips pushed values against
the indices in insertion order (not sorted): value `k` is delivered as
`name[indices[k]]`, cascading iff that element name is monitored, with no
log record. -/
theorem c2_array_zip_insertion_order (s : XPState) (ident : Nat)
    (meta : DatarefMeta) (vs : List Rat)
    (h : lookupId ident s.dataref_by_id = some (DrefEntry.array (some meta)))
    (hlen : vs.length = meta.indices.length) :
    processPair s (ident, WireValue.arr vs) =
      ((meta.indices.zip vs).map fun p =>
        WSEvent.datarefEvent (meta.name ++ "[" ++ toString p.1 ++ "]")
          (WireValue.num p.2)
          (s.monitored.contains (meta.name ++ "[" ++ toString p.1 ++ "]")), []) := by
  simp [processPair, h, processPairWith, hlen, arrayEvents]

/-- Closed instance for C2: subscribed index list `[1, 5, 7]` (built by
appending 1, then 5, then 7) and pushed array `[10, 20, 30]` deliver
`sim/arr[1]=10`, `sim/arr[5]=20`, `sim/arr[7]=30` in that order. -/
theorem c2_witness :
    processPair
      { connected := true, req_number := 0, requests := [], sent := []
        dataref_by_id :=
          [(12, DrefEntry.array (some
            ((((DatarefMeta.init "sim/arr" "float_array" true).append_index 1).append_index 5).append_index 7)))]
        command_by_id := [], monitored := ["sim/arr[5]"] }
      (12, WireValue.arr [10, 20, 30]) =
      ([WSEvent.datarefEvent "sim/arr[1]" (WireValue.num 10) false,
        WSEvent.datarefEvent "sim/arr[5]" (WireValue.num 20) true,
        WSEvent.datarefEvent "sim/arr[7]" (WireValue.num 30) false], []) := by
  have := c2_array_zip_insertion_order
    { connected := true, req_number := 0, requests := [], sent := []
      dataref_by_id :=
        [(12, DrefEntry.array (some
          ((((DatarefMeta.init "sim/arr" "float_array" true).append_index 1).append_index 5).append_index 7)))]
      command_by_id := [], monitored := ["sim/arr[5]"] }
    12
    ((((DatarefMeta.init "sim/arr" "float_array" true).append_index 1).append_index 5).append_index 7)
    [10, 20, 30] (by decide) (by decide)
  simpa using this

-- ### C3

/-- C3: on a push whose length does not match the current subscribed index
list, the dispatcher retries against the previously snapshotted index list
(`last_indices`, saved by `save_indices` before the last subscription
mutation): if the snapshot length matches, the values are delivered zipped
against the snapshot indices (after warnings); otherwise the push is dropped
with warnings and no event; either way the state is unchanged, so the receive
loop continues and later frames are processed identically. -/
theorem c3_snapshot_retry (s : XPState) (ident : Nat) (meta : DatarefMeta)
    (vs : List Rat)
    (h : lookupId ident s.dataref_by_id = some (DrefEntry.array (some meta)))
    (hlen : vs.length ≠ meta.indices.length) :
    (vs.length = meta.last_indices.length →
        processPair s (ident, WireValue.arr vs) =
          (arrayEvents meta.name meta.last_indices vs s.monitored,
            [LogLevel.warning, LogLevel.warning, LogLevel.warning, LogLevel.warning]))
    ∧ (vs.length ≠ meta.last_indices.length →
        processPair s (ident, WireValue.arr vs) =
          ([], [LogLevel.warning, LogLevel.warning, LogLevel.warning]))
    ∧ (∀ m : DatarefMeta, m.save_indices.last_indices = m.indices)
    ∧ (∀ fs : List Frame,
        processFrames s (Frame.datarefUpdate [(ident, WireValue.arr vs)] :: fs) =
          ((processFrames s fs).1,
            (processPair s (ident, WireValue.arr vs)).1 ++ (processFrames s fs).2.1,
            (processPair s (ident, WireValue.arr vs)).2 ++ (processFrames s fs).2.2)) := by
  refine ⟨?_, ?_, ?_, ?_⟩
  · intro hlast
    simp only [processPair, h, processPairWith]
    rw [if_neg hlen, if_pos hlast]
  · intro hlast
    simp only [processPair, h, processPairWith]
    rw [if_neg hlen, if_neg hlast]
  · intro m
    simp [DatarefMeta.save_indices, DatarefMeta.last_indices]
  · intro fs
    simp [processFrames, processFrame, processPairs]

/-- Closed instance for C3: current indices `[1, 5, 7]`, snapshot `[1, 5]`; a
pushed array of length 2 is delivered against the snapshot, and one of length
4 is dropped with no event. -/
theorem c3_witness :
    (processPair
        { connected := true, req_number := 0, requests := [], sent := []
          dataref_by_id :=
            [(12, DrefEntry.array (some
              { DatarefMeta.init "sim/arr" "float_array" true with
                  indices := [1, 5, 7], indices_history := [[1, 5]] }))]
          command_by_id := [], monitored := [] }
        (12, WireValue.arr [10, 20]) =
        ([WSEvent.datarefEvent "sim/arr[1]" (WireValue.num 10) false,
          WSEvent.datarefEvent "sim/arr[5]" (WireValue.num 20) false],
          [LogLevel.warning, LogLevel.warning, LogLevel.warning, LogLevel.warning]))
    ∧ (processPair
        { connected := true, req_number := 0, requests := [], sent := []
          dataref_by_id :=
            [(12, DrefEntry.array (some
              { DatarefMeta.init "sim/arr" "float_array" true with
                  indices := [1, 5, 7], indices_history := [[1, 5]] }))]
          command_by_id := [], monitored := [] }
        (12, WireValue.arr [10, 20, 30, 40]) =
        ([], [LogLevel.warning, LogLevel.warning, LogLevel.warning])) := by
  constructor
  · have := (c3_snapshot_retry
      { connected := true, req_number := 0, requests := [], sent := []
        dataref_by_id :=
          [(12, DrefEntry.array (some
            { DatarefMeta.init "sim/arr" "float_array" true with
                indices := [1, 5, 7], indices_history := [[1, 5]] }))]
        command_by_id := [], monitored := [] }
      12
      { DatarefMeta.init "sim/arr" "float_array" true with
          indices := [1, 5, 7], indices_history := [[1, 5]] }
      [10, 20] (by decide) (by decide)).1 (by decide)
    simpa [arrayEvents] using this
  · have := (c3_snapshot_retry
      { connected := true, req_number := 0, requests := [], sent := []
        dataref_by_id :=
          [(12, DrefEntry.array (some
            { DatarefMeta.init "sim/arr" "float_array" true with
                indices := [1, 5, 7], indices_history := [[1, 5]] }))]
        command_by_id := [], monitored := [] }
      12
      { DatarefMeta.init "sim/arr" "float_array" true with
          indices := [1, 5, 7], indices_history := [[1, 5]] }
      [10, 20, 30, 40] (by decide) (by decide)).2.1 (by decide)
    simpa using this

-- ### C1

/-- C1 counterexample: the claim states that, for a scalar numeric dataref
with a configured rounding of `r` decimals, `ws_receiver` emits a change
event iff the new value rounded to `r` decimals differs from the previously
emitted one — so pushing the same raw value twice in a row must emit at most
one event.  The dispatcher, however, enqueues a `DatarefEvent` for every
pushed scalar value: `dref_round` is defined inside `ws_receiver` but never
called, no value cache is consulted, and pushing the raw value 5 twice emits
two events even though `dref_round (some 2)` maps both pushes to the same
rounded value. -/
theorem c1_counterexample :
    (processFrames
        { connected := true, req_number := 0, requests := [], sent := []
          dataref_by_id := [(7, DrefEntry.scalar "sim/test/value" "float")]
          command_by_id := [], monitored := ["sim/test/value"] }
        [Frame.datarefUpdate [(7, WireValue.num 5)],
          Frame.datarefUpdate [(7, WireValue.num 5)]]).2.1 =
      [WSEvent.datarefEvent "sim/test/value" (WireValue.num 5) true,
        WSEvent.datarefEvent "sim/test/value" (WireValue.num 5) true]
    ∧ dref_round (some 2) 5 = dref_round (some 2) 5 := by
  exact ⟨by decide, rfl⟩

/-- C1 amended: the dispatcher emits a change event for every pushed scalar
value of a known dataref, unconditionally — it applies no rounding and
consults no cache of previously emitted values — so pushing the same raw
value `n` times in a row emits `n` identical events. -/
theorem c1_scalar_always_emits (s : XPState) (ident : Nat) (name vt : String)
    (v : Rat) (h : lookupId ident s.dataref_by_id = some (DrefEntry.scalar name vt)) :
    (processFrame s (Frame.datarefUpdate [(ident, WireValue.num v)])).2.1 =
        [WSEvent.datarefEvent name (WireValue.num v) (s.monitored.contains name)]
    ∧ ∀ n : Nat,
        (processFrames s
            (List.replicate n (Frame.datarefUpdate [(ident, WireValue.num v)]))).2.1 =
          List.replicate n
            (WSEvent.datarefEvent name (WireValue.num v) (s.monitored.contains name)) := by
  have hone : processFrame s (Frame.datarefUpdate [(ident, WireValue.num v)]) =
      (s, [WSEvent.datarefEvent name (WireValue.num v) (s.monitored.contains name)], []) := by
    simp [processFrame, processPairs, processPair, h, processPairWith]
  refine ⟨by rw [hone], ?_⟩
  intro n
  induction n with
  | zero => simp [processFrames]
  | succ k ih =>
    rw [List.replicate_succ]
    simp only [processFrames, hone]
    rw [ih]
    simp [List.replicate_succ]

/-- Closed instance for the amended C1: three identical pushes emit three
events. -/
theorem c1_witness :
    (processFrames
        { connected := true, req_number := 0, requests := [], sent := []
          dataref_by_id := [(7, DrefEntry.scalar "sim/test/value" "float")]
          command_by_id := [], monitored := ["sim/test/value"] }
        (List.replicate 3 (Frame.datarefUpdate [(7, WireValue.num 5)]))).2.1 =
      List.replicate 3 (WSEvent.datarefEvent "sim/test/value" (WireValue.num 5) true) := by
  have := (c1_scalar_always_emits
    { connected := true, req_number := 0, requests := [], sent := []
      dataref_by_id := [(7, DrefEntry.scalar "sim/test/value" "float")]
      command_by_id := [], monitored := ["sim/test/value"] }
    7 "sim/test/value" "float" 5 (by decide)).2 3
  simpa using this

-- ### C7

/-- C7 counterexample: the claim states that a `result` frame bearing a
request id never issued by `send` leaves the pending-request table unchanged.
The handler, however, executes `self._requests[req_id] = data["success"]`
without checking that the id is known: starting from an empty table, a result
frame with the unknown id 99 inserts the entry `(99, success)`. -/
theorem c7_counterexample :
    (processFrame
        { connected := true, req_number := 0, requests := [], sent := []
          dataref_by_id := [], command_by_id := [], monitored := [] }
        (Frame.result (some 99) true)).1.requests = [(99, some true)] := by
  decide

/-- C7 amended: a `result` frame (known or unknown id) never raises out of
the receive loop and emits no event, but it does mutate the pending-request
table: the frame's id is stored with the frame's `success` value (inserted
when absent), a warning is logged when `success` is false and a debug record
otherwise, and the receive loop continues with later frames processed from
the updated state. -/
theorem c7_result_frame (s : XPState) (r : Nat) (b : Bool) :
    processFrame s (Frame.result (some r) b) =
        ({ s with requests := setEntry r (some b) s.requests }, [],
          if b then [LogLevel.debug] else [LogLevel.warning])
    ∧ ∀ fs : List Frame,
        processFrames s (Frame.result (some r) b :: fs) =
          ((processFrames { s with requests := setEntry r (some b) s.requests } fs).1,
            (processFrames { s with requests := setEntry r (some b) s.requests } fs).2.1,
            (if b then [LogLevel.debug] else [LogLevel.warning])
              ++ (processFrames { s with requests := setEntry r (some b) s.requests } fs).2.2) := by
  refine ⟨rfl, ?_⟩
  intro fs
  simp [processFrames, processFrame]

-- ### C8

/-- C8: a `dataref_update_values` pair whose ident resolves to no dataref in
the current cache emits no event and produces exactly one debug-level (not
warning-level) log record, and processing continues with the remaining pairs
of the frame and with subsequent frames. -/
theorem c8_unknown_ident_debug (s : XPState) (ident : Nat) (v : WireValue)
    (h : lookupId ident s.dataref_by_id = none) :
    processPair s (ident, v) = ([], [LogLevel.debug])
    ∧ (∀ rest : List (Nat × WireValue),
        processPairs s ((ident, v) :: rest) =
          ((processPairs s rest).1, LogLevel.debug :: (processPairs s rest).2))
    ∧ (∀ fs : List Frame,
        (processFrames s (Frame.datarefUpdate [(ident, v)] :: fs)).2.1 =
          (processFrames s fs).2.1) := by
  have hp : processPair s (ident, v) = ([], [LogLevel.debug]) := by
    simp [processPair, h, processPairWith]
  refine ⟨hp, ?_, ?_⟩
  · intro rest
    simp [processPairs, hp]
  · intro fs
    simp [processFrames, processFrame, processPairs, hp]

/-- Closed instance for C8: ident 999 is absent from the cache; its update is
dropped with one debug record and the next pair is still delivered. -/
theorem c8_witness :
    processPairs
      { connected := true, req_number := 0, requests := [], sent := []
        dataref_by_id := [(7, DrefEntry.scalar "sim/test/value" "float")]
        command_by_id := [], monitored := [] }
      [(999, WireValue.num 1), (7, WireValue.num 2)] =
      ([WSEvent.datarefEvent "sim/test/value" (WireValue.num 2) false],
        [LogLevel.debug]) := by
  have := ((c8_unknown_ident_debug
    { connected := true, req_number := 0, requests := [], sent := []
      dataref_by_id := [(7, DrefEntry.scalar "sim/test/value" "float")]
      command_by_id := [], monitored := [] }
    999 (WireValue.num 1) (by decide)).2.1) [(7, WireValue.num 2)]
  rw [this]
  decide

-- ### C9

/-- C9: an exception raised while decoding a single frame is caught inside
the receive loop: a `malformed` frame leaves the state unchanged, emits no
event and logs one warning record with the offending payload, and the loop
goes on to process the remaining frames exactly as it would have without the
malformed one — so a malformed frame followed by a well-formed frame yields
precisely the events of the well-formed frame. -/
theorem c9_malformed_isolated (s : XPState) (fs : List Frame) :
    processFrames s (Frame.malformed :: fs) =
      ((processFrames s fs).1, (processFrames s fs).2.1,
        LogLevel.warning :: (processFrames s fs).2.2) := by
  simp [processFrames, processFrame]

/-- Closed instance for C9: a malformed frame followed by a well-formed
scalar update produces exactly one event, from the well-formed frame. -/
theorem c9_witness :
    (processFrames
        { connected := true, req_number := 0, requests := [], sent := []
          dataref_by_id := [(7, DrefEntry.scalar "sim/test/value" "float")]
          command_by_id := [], monitored := [] }
        [Frame.malformed, Frame.datarefUpdate [(7, WireValue.num 5)]]).2.1 =
      [WSEvent.datarefEvent "sim/test/value" (WireValue.num 5) false] := by
  rw [c9_malformed_isolated]
  decide

-- ### C5

theorem send_not_connected (s : XPState) (p : List (String × Int))
    (h : s.connected = false) : send s p = (s, -1) := by
  obtain ⟨conn, n, reqs, sp, dbi, cbi, mon⟩ := s
  simp only at h
  subst h
  cases p <;> rfl

theorem send_empty (s : XPState) : send s [] = (s, -1) := by
  obtain ⟨conn, n, reqs, sp, dbi, cbi, mon⟩ := s
  cases conn <;> rfl

theorem send_success (s : XPState) (a : String × Int) (b : List (String × Int))
    (h : s.connected = true) :
    send s (a :: b) =
      ({ s with
          req_number := s.req_number + 1
          requests := setEntry (s.req_number + 1) none s.requests
          sent := s.sent ++ [setKey "req_id" (Int.ofNat (s.req_number + 1)) (a :: b)] },
        Int.ofNat (s.req_number + 1)) := by
  obtain ⟨conn, n, reqs, sp, dbi, cbi, mon⟩ := s
  simp only at h
  subst h
  rfl

theorem lookupId_setEntry_self {α : Type} (l : List (Nat × α)) (k : Nat) (v : α) :
    lookupId k (setEntry k v l) = some v := by
  induction l with
  | nil => simp [setEntry, lookupId]
  | cons hd t ih =>
    obtain ⟨k', v'⟩ := hd
    by_cases hk : k' = k
    · subst hk
      simp [setEntry, lookupId]
    · have hk' : ¬k = k' := fun hh => hk hh.symm
      simp [setEntry, hk, lookupId, hk', ih]

theorem sendAll_gt (ps : List (List (String × Int))) (s : XPState) :
    ∀ r ∈ (sendAll s ps).2, r ≠ -1 → Int.ofNat s.req_number < r := by
  induction ps generalizing s with
  | nil => intro r hr hne; simp [sendAll] at hr
  | cons p t ih =>
    intro r hr hne
    simp only [sendAll, List.mem_cons] at hr
    by_cases hc : s.connected = true
    · cases p with
      | nil =>
        rw [send_empty] at hr
        rcases hr with hr | hr
        · exact absurd hr hne
        · exact ih s r hr hne
      | cons a b =>
        rw [send_success s a b hc] at hr
        rcases hr with hr | hr
        · subst hr
          simp only [Int.ofNat_eq_coe]
          exact_mod_cast Nat.lt_succ_self s.req_number
        · have := ih _ r hr hne
          simp only [Int.ofNat_eq_coe] at this ⊢
          have hlt : (s.req_number : Int) < (s.req_number + 1 : Nat) := by exact_mod_cast Nat.lt_succ_self s.req_number
          exact lt_trans hlt this
    · have hc' : s.connected = false := by simpa using hc
      rw [send_not_connected s p hc'] at hr
      rcases hr with hr | hr
      · exact absurd hr hne
      · exact ih s r hr hne

theorem sendAll_success_pairwise (ps : List (List (String × Int))) (s : XPState) :
    ((sendAll s ps).2.filter (fun r => r != -1)).Pairwise (· < ·) := by
  induction ps generalizing s with
  | nil => simp [sendAll]
  | cons p t ih =>
    simp only [sendAll, List.filter_cons]
    by_cases hr : ((send s p).2 != -1) = true
    · rw [if_pos hr]
      refine List.Pairwise.cons ?_ (ih _)
      intro r hrmem
      rw [List.mem_filter] at hrmem
      have hgt := sendAll_gt t (send s p).1 r hrmem.1 (by simpa using hrmem.2)
      by_cases hc : s.connected = true
      · cases p with
        | nil =>
          rw [send_empty] at hr
          simp at hr
        | cons a b =>
          rw [send_success s a b hc] at hgt ⊢
          simpa using hgt
      · have hc' : s.connected = false := by simpa using hc
        rw [send_not_connected s p hc'] at hr
        simp at hr
    · rw [if_neg hr]
      exact ih _

/-- C5: `send` returns -1, transmits nothing and changes no state when the
WebSocket is not connected or the payload is empty; otherwise it returns the
pre-incremented request number, appends the serialized payload with the id
inserted under `"req_id"`, records the id as pending (`None`) in the
`_requests` table, and across any sequence of calls the successful ids are
strictly increasing. -/
theorem c5_send_ids (s : XPState) (p : List (String × Int)) :
    ((s.connected = false ∨ p = []) → send s p = (s, -1))
    ∧ (s.connected = true → p ≠ [] →
        (send s p).2 = Int.ofNat (s.req_number + 1)
        ∧ (send s p).1.req_number = s.req_number + 1
        ∧ (send s p).1.sent =
            s.sent ++ [setKey "req_id" (Int.ofNat (s.req_number + 1)) p]
        ∧ lookupId (s.req_number + 1) (send s p).1.requests = some none)
    ∧ ∀ ps : List (List (String × Int)),
        ((sendAll s ps).2.filter (fun r => r != -1)).Pairwise (· < ·) := by
  refine ⟨?_, ?_, fun ps => sendAll_success_pairwise ps s⟩
  · rintro (hc | hp)
    · exact send_not_connected s p hc
    · subst hp; exact send_empty s
  · intro hc hp
    match p, hp with
    | a :: b, _ =>
      rw [send_success s a b hc]
      refine ⟨rfl, rfl, rfl, ?_⟩
      exact lookupId_setEntry_self s.requests (s.req_number + 1) none

/-- Closed instance for C5: from a fresh connected state, the first send
returns id 1 and records it pending; with the connection down the same call
returns -1 and changes nothing. -/
theorem c5_witness :
    (send
        { connected := true, req_number := 0, requests := [], sent := []
          dataref_by_id := [], command_by_id := [], monitored := [] }
        [("type", 5)]).2 = 1
    ∧ lookupId 1
        (send
          { connected := true, req_number := 0, requests := [], sent := []
            dataref_by_id := [], command_by_id := [], monitored := [] }
          [("type", 5)]).1.requests = some none
    ∧ send
        { connected := false, req_number := 0, requests := [], sent := []
          dataref_by_id := [], command_by_id := [], monitored := [] }
        [("type", 5)] =
        ({ connected := false, req_number := 0, requests := [], sent := []
           dataref_by_id := [], command_by_id := [], monitored := [] }, -1) :=
  ⟨((c5_send_ids
      { connected := true, req_number := 0, requests := [], sent := []
        dataref_by_id := [], command_by_id := [], monitored := [] }
      [("type", 5)]).2.1 rfl (by decide)).1,
    ((c5_send_ids
      { connected := true, req_number := 0, requests := [], sent := []
        dataref_by_id := [], command_by_id := [], monitored := [] }
      [("type", 5)]).2.1 rfl (by decide)).2.2.2,
    (c5_send_ids
      { connected := false, req_number := 0, requests := [], sent := []
        dataref_by_id := [], command_by_id := [], monitored := [] }
      [("type", 5)]).1 (Or.inl rfl)⟩
